import Mathlib

/-!
Verification development for the credit metering and plan-entitlement
subsystem of the Assign repository.

The pure configuration and validation logic (plan limits, credit-ratio
conversion, `validateRequest`, `refreshFreemiumCredits`, the credit-update
endpoint, and the reconciliation step of the research route) is embedded
directly from the JavaScript sources.  The credit ledger itself
(`improvedCreditSystem.js`: `deductCreditsAtomic`, `commitTransaction`,
`rollbackTransaction`, `refundCredits`) is not present in the sources, only
its callers are; those operations are modelled from the specification
(section 4.3) and are marked `Modelled from the spec:` below.

Machine numbers are modelled as `Nat`/`Int`/`ℚ` with exact arithmetic.
-/

/-- Plan limits record.  From `services/planValidator.js` (`this.limits`):
each plan maps to an object with a `monthlyCredits` field that is a number
or `null` (unlimited). -/
structure PlanLimits where
  monthlyCredits : Option Nat
deriving DecidableEq

/-- The `this.limits` table of `PlanValidator`
(`services/planValidator.js` lines 21-25, and the table intended by
`services/creditAllocationService.js` lines 565-570):
freemium 200, pro 2000, custom null.  A key that is absent yields `none`
(JavaScript `undefined`). -/
def planValidatorLimits (planType : String) : Option PlanLimits :=
  if planType = "freemium" then some ⟨some 200⟩
  else if planType = "pro" then some ⟨some 2000⟩
  else if planType = "custom" then some ⟨none⟩
  else none

/-- `PlanValidator.getPlanLimits` (`services/planValidator.js` lines
203-205 and `services/creditAllocationService.js` lines 885-887):
`return this.limits[planType] || null;` — a lookup that yields the limits
object or `null`; the function cannot throw. -/
def getPlanLimits (planType : String) : Option PlanLimits :=
  planValidatorLimits planType

/-- Modelled from the spec: `getLimits(planType)` "fails with
`UnknownPlanError` for unrecognized plan types (never silently defaults)".
This is the specification-side contract, stated for comparison with the
source function `getPlanLimits` above. -/
def getLimitsSpec (planType : String) : Except String PlanLimits :=
  match planValidatorLimits planType with
  | some l => .ok l
  | none => .error "UnknownPlanError"

/-- The `ratios` table of `PlanValidator.estimateCreditsNeeded`
(`services/creditAllocationService.js` lines 848-854): writing 3,
research 5, detector_detection 0.05, detector_generation 5,
prompt_engineer 100.  An unknown key yields `none` (JavaScript
`undefined`). -/
def creditRatioTable (toolType : String) : Option ℚ :=
  if toolType = "writing" then some 3
  else if toolType = "research" then some 5
  else if toolType = "detector_detection" then some (5 / 100)
  else if toolType = "detector_generation" then some 5
  else if toolType = "prompt_engineer" then some 100
  else none

/-- `PlanValidator.estimateCreditsNeeded(wordCount, planType, toolType)`
(`services/creditAllocationService.js` lines 846-865).
`const ratio = ratios[toolType] || ratios.writing;` then
`detector_detection` is special-cased as `Math.ceil((wordCount/1000)*50)`
and every other tool uses `Math.ceil(wordCount / ratio)`.
`planType` is accepted but not used by the source function. -/
def estimateCreditsNeeded (wordCount : Nat) (planType toolType : String) : Nat :=
  let ratio : ℚ := (creditRatioTable toolType).getD 3
  let _ := planType
  if toolType = "detector_detection" then
    (Int.ceil ((wordCount : ℚ) / 1000 * 50)).toNat
  else
    (Int.ceil ((wordCount : ℚ) / ratio)).toNat

/-- The tool types that appear as keys of the `ratios` table. -/
def recognizedToolTypes : List String :=
  ["writing", "research", "detector_detection", "detector_generation", "prompt_engineer"]

/-- Effective words-per-credit ratio of each recognized tool, in the
canonical direction fixed by the spec (section 4.1): writing 3, research 5,
detector_generation 5, prompt_engineer 100.  For detector_detection the
source charges `ceil((wordCount/1000)*50)`, which is exactly one credit per
20 words. -/
def wordsPerCredit (toolType : String) : Nat :=
  if toolType = "writing" then 3
  else if toolType = "research" then 5
  else if toolType = "detector_detection" then 20
  else if toolType = "detector_generation" then 5
  else if toolType = "prompt_engineer" then 100
  else 3

/-- States of a `CreditTransaction` (spec section 3):
`reserved`, `committed`, `rolled_back`. -/
inductive TxState
  | reserved
  | committed
  | rolled_back
deriving DecidableEq

/-- A ledger entry / reservation record (spec section 3: CreditTransaction). -/
structure CreditTransaction where
  txId : Nat
  userId : String
  toolType : String
  creditsReserved : Nat
  wordsAllocated : Nat
  state : TxState
deriving DecidableEq

/-- The document-store state that the ledger operates on for one user:
the spendable balance, the append-only list of transaction records, and
the next fresh transaction identifier. -/
structure LedgerState where
  credits : Int
  txs : List CreditTransaction
  nextId : Nat
deriving DecidableEq

/-- Result of a reservation attempt, following the shape the callers
destructure (`success`, `transactionId`, `creditsDeducted`,
`wordsAllocated`, `newBalance` on success; `availableCredits` on
failure). -/
inductive ReserveResult
  | success (transactionId creditsDeducted wordsAllocated : Nat) (newBalance : Int)
  | insufficient (requiredCredits : Nat) (availableCredits : Int)
deriving DecidableEq

/-- Modelled from the spec: `improvedCreditSystem.js` is required by the
routes and services but is absent from the sources, so
`deductCreditsAtomic` (the ledger `reserve`, spec section 4.3) is modelled
from the specification: compute `requiredCredits` from the word count via
the registry conversion, then in one atomic store transaction check the
balance and either fail (balance unchanged) or decrement the balance and
append a `CreditTransaction` in state `reserved`. -/
def deductCreditsAtomic (s : LedgerState) (userId : String) (wordCount : Nat)
    (planType toolType : String) : LedgerState × ReserveResult :=
  let required := estimateCreditsNeeded wordCount planType toolType
  if s.credits < (required : Int) then
    (s, .insufficient required s.credits)
  else
    ({ credits := s.credits - required,
       txs := s.txs ++ [{ txId := s.nextId, userId := userId, toolType := toolType,
                          creditsReserved := required, wordsAllocated := wordCount,
                          state := .reserved }],
       nextId := s.nextId + 1 },
     .success s.nextId required wordCount (s.credits - (required : Int)))

/-- Modelled from the spec: per-transaction `commit` step (spec section
4.3): `reserved → committed`; committing an already-committed transaction
is a no-op, not an error; committing a rolled-back transaction is a logic
error, reported distinctly. -/
def txCommit : TxState → Except String TxState
  | .reserved => .ok .committed
  | .committed => .ok .committed
  | .rolled_back => .error "Cannot commit a rolled back transaction"

/-- Modelled from the spec: per-transaction `rollback` step (spec section
4.3): `reserved → rolled_back`; a second rollback is a no-op; a committed
transaction admits no further transition. -/
def txRollback : TxState → Except String TxState
  | .reserved => .ok .rolled_back
  | .rolled_back => .ok .rolled_back
  | .committed => .error "Cannot roll back a committed transaction"

/-- Lookup of a transaction record by identifier. -/
def findTx (s : LedgerState) (txId : Nat) : Option CreditTransaction :=
  s.txs.find? (fun t => t.txId == txId)

/-- Modelled from the spec: `commit(transactionId)` marks the transaction
committed; unknown identifiers are programmer errors (spec section 7). -/
def commitTransaction (s : LedgerState) (txId : Nat) : Except String LedgerState :=
  match findTx s txId with
  | none => .error "Unknown transaction"
  | some t =>
    match txCommit t.state with
    | .error e => .error e
    | .ok st =>
      .ok { s with txs := s.txs.map (fun u => if u.txId == txId then { u with state := st } else u) }

/-- Modelled from the spec: `rollback(transactionId)` restores exactly the
credits that were reserved (never an amount computed from partial output)
and marks the transaction rolled back; a second rollback of the same
transaction is a no-op returning zero restored. -/
def rollbackTransaction (s : LedgerState) (txId : Nat) : Except String (LedgerState × Nat) :=
  match findTx s txId with
  | none => .error "Unknown transaction"
  | some t =>
    match t.state with
    | .reserved =>
      .ok ({ s with
              credits := s.credits + (t.creditsReserved : Int),
              txs := s.txs.map (fun u =>
                if u.txId == txId then { u with state := .rolled_back } else u) },
           t.creditsReserved)
    | .rolled_back => .ok (s, 0)
    | .committed => .error "Cannot roll back a committed transaction"

/-- Modelled from the spec: `refundCredits(userId, amount, reason)` is an
unconditional credit addition outside the reserve/commit flow. -/
def refundCredits (s : LedgerState) (amount : Nat) : LedgerState :=
  { s with credits := s.credits + (amount : Int) }

/-- Sequential execution of a batch of reservation requests
`(wordCount, toolType)` against one user's ledger.  Because each
`deductCreditsAtomic` call is a single atomic store transaction, any set of
concurrent reserve calls is serialized by the store into such a list. -/
def runReserves (s : LedgerState) (userId planType : String) :
    List (Nat × String) → LedgerState × List ReserveResult
  | [] => (s, [])
  | (w, tool) :: rest =>
    let step := deductCreditsAtomic s userId w planType tool
    let next := runReserves step.1 userId planType rest
    (next.1, step.2 :: next.2)

/-- Credits actually taken from the balance by one reservation outcome. -/
def successCost : ReserveResult → Nat
  | .success _ c _ _ => c
  | .insufficient _ _ => 0

/-- An orchestrator call against one transaction: a `commit` or a
`rollback` request. -/
inductive TxOp
  | commitOp
  | rollbackOp
deriving DecidableEq

/-- Effect of one orchestrator call on a transaction's state; a call that
reports an error leaves the stored state unchanged. -/
def applyTxOp (st : TxState) (op : TxOp) : TxState :=
  match op with
  | .commitOp =>
    match txCommit st with
    | .ok st2 => st2
    | .error _ => st
  | .rollbackOp =>
    match txRollback st with
    | .ok st2 => st2
    | .error _ => st

/-- State of a transaction created in state `reserved` after a sequence of
commit/rollback calls. -/
def runTxOps (ops : List TxOp) : TxState :=
  ops.foldl applyTxOp .reserved

/-- The user-plan record read by `validateRequest`
(`services/creditAllocationService.js` `getUserPlan`): plan type and
current credit balance. -/
structure UserPlanInfo where
  planType : String
  credits : Int
deriving DecidableEq

/-- A monthly usage aggregate (`totalWords`, `totalCredits`). -/
structure MonthlyUsage where
  totalWords : Nat
  totalCredits : Nat
deriving DecidableEq

/-- The store contents consulted by `PlanValidator.validateRequest`:
the user's plan record (or none) and the current month's usage
aggregate. -/
structure ValidatorEnv where
  userPlan : Option UserPlanInfo
  monthlyUsage : MonthlyUsage
deriving DecidableEq

/-- Outcome shape of the validator functions: `isValid`, optional
`errorCode`, optional `estimatedCredits`. -/
structure ValidationResult where
  isValid : Bool
  errorCode : Option String
  estimatedCredits : Option Nat
deriving DecidableEq

/-- `PlanValidator.validateCreditAvailability`
(`services/creditAllocationService.js` lines 702-740): estimate the
credits needed and compare with the available balance;
`INSUFFICIENT_CREDITS` when the balance is smaller. -/
def validateCreditAvailability (availableCredits : Int) (requestedWordCount : Nat)
    (planType toolType : String) : ValidationResult :=
  let est := estimateCreditsNeeded requestedWordCount planType toolType
  if availableCredits < (est : Int) then
    { isValid := false, errorCode := some "INSUFFICIENT_CREDITS", estimatedCredits := some est }
  else
    { isValid := true, errorCode := none, estimatedCredits := some est }

/-- `PlanValidator.validateRequest`
(`services/creditAllocationService.js` lines 581-619): look up the user
plan (`PLAN_NOT_FOUND` when missing), look up the plan limits
(`INVALID_PLAN` when the plan type is not in the table), then check credit
availability.  The source comments "Only check credits now" and the
function does not call `validateMonthlyLimits`. -/
def validateRequest (env : ValidatorEnv) (requestedWordCount : Nat)
    (toolType : String) : ValidationResult :=
  match env.userPlan with
  | none => { isValid := false, errorCode := some "PLAN_NOT_FOUND", estimatedCredits := none }
  | some plan =>
    match planValidatorLimits plan.planType with
    | none => { isValid := false, errorCode := some "INVALID_PLAN", estimatedCredits := none }
    | some _ =>
      validateCreditAvailability plan.credits requestedWordCount plan.planType toolType

/-- The `monthlyWordLimit` field that `validateMonthlyLimits` reads from
`this.limits.freemium`; the limits table defines only `monthlyCredits`, so
the field is JavaScript `undefined`. -/
def freemiumMonthlyWordLimit : Option Nat := none

/-- The `monthlyCreditLimit` field that `validateMonthlyLimits` reads from
`this.limits.freemium`; the limits table defines only `monthlyCredits`, so
the field is JavaScript `undefined`. -/
def freemiumMonthlyCreditLimit : Option Nat := none

/-- JavaScript `x >= limit` where the limit may be `undefined`: any
comparison with `undefined` is false. -/
def jsGeLimit (x : Nat) (limit : Option Nat) : Bool :=
  match limit with
  | some l => decide (l ≤ x)
  | none => false

/-- JavaScript `x > limit` where the limit may be `undefined`. -/
def jsGtLimit (x : Nat) (limit : Option Nat) : Bool :=
  match limit with
  | some l => decide (l < x)
  | none => false

/-- `PlanValidator.validateMonthlyLimits`
(`services/creditAllocationService.js` lines 627-692): compares the
month's usage against `this.limits.freemium.monthlyWordLimit` and
`this.limits.freemium.monthlyCreditLimit` and returns the first limit
error, else a valid result.  `validateRequest` never calls this
function. -/
def validateMonthlyLimits (usage : MonthlyUsage) (requestedWordCount : Nat) :
    ValidationResult :=
  if jsGeLimit usage.totalWords freemiumMonthlyWordLimit then
    { isValid := false, errorCode := some "MONTHLY_WORD_LIMIT_REACHED", estimatedCredits := none }
  else if jsGtLimit (usage.totalWords + requestedWordCount) freemiumMonthlyWordLimit then
    { isValid := false, errorCode := some "MONTHLY_WORD_LIMIT_WOULD_EXCEED",
      estimatedCredits := none }
  else if jsGeLimit usage.totalCredits freemiumMonthlyCreditLimit then
    { isValid := false, errorCode := some "MONTHLY_CREDIT_LIMIT_REACHED",
      estimatedCredits := none }
  else
    { isValid := true, errorCode := none, estimatedCredits := none }

/-- A user document as read by the allocation service
(`services/creditAllocationService.js`): plan type, credit balance, and
the (year, month) of the last monthly refresh, when one was recorded with
a store timestamp. -/
structure UserDoc where
  planType : String
  credits : Int
  lastCreditRefresh : Option (Nat × Nat)
deriving DecidableEq

/-- Result shape of `refreshFreemiumCredits`: either a skipped outcome
carrying its reason, or a success carrying the allotted credits. -/
inductive RefreshResult
  | skipped (reason : String)
  | refreshed (credits : Nat)
deriving DecidableEq

/-- `CREDIT_CONFIG.FREEMIUM.monthlyCredits`
(`services/creditAllocationService.js` line 5). -/
def freemiumMonthlyCredits : Nat := 200

/-- `CREDIT_CONFIG.PRO.monthlyCredits`
(`services/creditAllocationService.js` line 6). -/
def proMonthlyCredits : Nat := 2000

/-- `refreshFreemiumCredits(userId)`
(`services/creditAllocationService.js` lines 13-43): error when the user
document is missing; skipped for non-freemium users; skipped when the last
refresh happened in the current calendar month (same year and month);
otherwise the balance is set to the monthly allotment and the refresh
timestamp is updated.  `now` is the (year, month) of the current date. -/
def refreshFreemiumCredits (now : Nat × Nat) (user : Option UserDoc) :
    Except String (UserDoc × RefreshResult) :=
  match user with
  | none => .error "User not found"
  | some u =>
    if u.planType ≠ "freemium" then .ok (u, .skipped "Not a freemium user")
    else
      match u.lastCreditRefresh with
      | some lastRefresh =>
        if lastRefresh = now then .ok (u, .skipped "Already refreshed this month")
        else
          .ok ({ u with credits := (freemiumMonthlyCredits : Int),
                        lastCreditRefresh := some now },
               .refreshed freemiumMonthlyCredits)
      | none =>
        .ok ({ u with credits := (freemiumMonthlyCredits : Int),
                      lastCreditRefresh := some now },
             .refreshed freemiumMonthlyCredits)

/-- `allocateProCredits(userId)`
(`services/creditAllocationService.js` lines 48-59): increments the balance
by the PRO monthly allotment. -/
def allocateProCredits (u : UserDoc) : UserDoc :=
  { u with credits := u.credits + (proMonthlyCredits : Int) }

/-- `CREDIT_CONFIG.CUSTOM` (`services/creditAllocationService.js` line 7):
minimum payment 15 USD, 220 credits per dollar. -/
def customMinAmount : Int := 15

def customCreditsPerDollar : Int := 220

/-- `allocateCustomCredits(userId, amountPaid)`
(`services/creditAllocationService.js` lines 66-83): rejects payments
below the minimum, otherwise increments the balance by
`amountPaid * creditsPerDollar`.  Dollar amounts are modelled as
integers. -/
def allocateCustomCredits (u : UserDoc) (amountPaid : Int) : Except String UserDoc :=
  if amountPaid < customMinAmount then .error "Minimum payment is 15"
  else .ok { u with credits := u.credits + amountPaid * customCreditsPerDollar }

/-- The `POST /user/:uid/credits` handler (`functions/index.js`,
`src/unnamed/part_006` lines 206-224): inside a store transaction it reads
`credits || 0` and writes `credits + amount`, with no other check on
`amount` or on the resulting balance. -/
def updateCreditsTransaction (u : UserDoc) (amount : Int) : UserDoc :=
  { u with credits := u.credits + amount }

/-- Outcome of the credit handling of `POST /api/research/query`. -/
inductive ResearchOutcome
  | insufficientCredits (availableCredits : Int)
  | completed (s : LedgerState) (finalCreditsUsed : Int) (transactionId : Nat)
deriving DecidableEq

/-- Credit handling of `POST /api/research/query`
(`routes/research.js` lines 63-111): deduct credits for the estimated word
count; after the research completes, reconcile against the actual word
count: a second, independent `deductCreditsAtomic` for the extra words when
`actual > estimated` (added to `finalCreditsUsed` only when it succeeds),
or a `refundCredits` of `Math.ceil(overWords / 5)` when
`actual < estimated`. -/
def researchQueryCredits (s : LedgerState) (userId planType : String)
    (estimatedWordCount actualWordCount : Nat) : ResearchOutcome :=
  let step1 := deductCreditsAtomic s userId estimatedWordCount planType "research"
  match step1.2 with
  | .insufficient _ avail => .insufficientCredits avail
  | .success txId creditsDeducted _ _ =>
    if actualWordCount = estimatedWordCount then
      .completed step1.1 (creditsDeducted : Int) txId
    else if estimatedWordCount < actualWordCount then
      let wordDiff := actualWordCount - estimatedWordCount
      let step2 := deductCreditsAtomic step1.1 userId wordDiff planType "research"
      match step2.2 with
      | .success _ creditsDeducted2 _ _ =>
        .completed step2.1 ((creditsDeducted : Int) + creditsDeducted2) txId
      | .insufficient _ _ => .completed step1.1 (creditsDeducted : Int) txId
    else
      let overWords := estimatedWordCount - actualWordCount
      let refund := (Int.ceil ((overWords : ℚ) / 5)).toNat
      .completed (refundCredits step1.1 refund) ((creditsDeducted : Int) - refund) txId

/-- Ceiling of a natural division, computed through `ℚ` as the source's
`Math.ceil(wordCount / ratio)` does, equals the usual natural-number
ceiling division `(w + r - 1) / r`. -/
lemma toNat_ceil_div_nat (w r : Nat) (hr : 0 < r) :
    (Int.ceil ((w : ℚ) / (r : ℚ))).toNat = (w + r - 1) / r := by
  have hr0 : (0 : ℚ) < (r : ℚ) := by exact_mod_cast hr
  set q : Nat := (w + r - 1) / r with hq
  have hmul : r * q + (w + r - 1) % r = w + r - 1 := Nat.div_add_mod (w + r - 1) r
  have hmlt : (w + r - 1) % r < r := Nat.mod_lt _ hr
  have hmul2 : r * q + (w + r - 1) % r + 1 = w + r := by omega
  have hz : (r : ℤ) * q + ((w + r - 1) % r : Nat) + 1 = (w : ℤ) + r := by
    exact_mod_cast hmul2
  have hm0 : (0 : ℤ) ≤ ((w + r - 1) % r : Nat) := Int.natCast_nonneg _
  have hmr : (((w + r - 1) % r : Nat) : ℤ) < (r : ℤ) := by exact_mod_cast hmlt
  have hceil : Int.ceil ((w : ℚ) / (r : ℚ)) = (q : ℤ) := by
    rw [Int.ceil_eq_iff]
    constructor
    · rw [lt_div_iff₀ hr0]
      have hlt : ((q : ℤ) - 1) * (r : ℤ) < (w : ℤ) := by
        have hexp : ((q : ℤ) - 1) * (r : ℤ) = (q : ℤ) * r - r := by ring
        rw [hexp]; linarith
      exact_mod_cast hlt
    · rw [div_le_iff₀ hr0]
      have hle : (w : ℤ) ≤ (q : ℤ) * (r : ℤ) := by linarith
      exact_mod_cast hle
  rw [hceil]
  exact Int.toNat_natCast q

lemma estimate_writing (w : Nat) (plan : String) :
    estimateCreditsNeeded w plan "writing" = (w + 2) / 3 := by
  have h := toNat_ceil_div_nat w 3 (by norm_num)
  simp only [estimateCreditsNeeded, creditRatioTable]
  norm_num at h ⊢
  exact h

lemma estimate_research (w : Nat) (plan : String) :
    estimateCreditsNeeded w plan "research" = (w + 4) / 5 := by
  have h := toNat_ceil_div_nat w 5 (by norm_num)
  simp only [estimateCreditsNeeded, creditRatioTable]
  norm_num at h ⊢
  exact h

lemma estimate_detector_detection (w : Nat) (plan : String) :
    estimateCreditsNeeded w plan "detector_detection" = (w + 19) / 20 := by
  have h := toNat_ceil_div_nat w 20 (by norm_num)
  have hq : (w : ℚ) / 1000 * 50 = (w : ℚ) / 20 := by ring
  simp only [estimateCreditsNeeded, creditRatioTable]
  norm_num at h ⊢
  rw [hq]
  exact h

lemma estimate_detector_generation (w : Nat) (plan : String) :
    estimateCreditsNeeded w plan "detector_generation" = (w + 4) / 5 := by
  have h := toNat_ceil_div_nat w 5 (by norm_num)
  simp only [estimateCreditsNeeded, creditRatioTable]
  norm_num at h ⊢
  exact h

lemma estimate_prompt_engineer (w : Nat) (plan : String) :
    estimateCreditsNeeded w plan "prompt_engineer" = (w + 99) / 100 := by
  have h := toNat_ceil_div_nat w 100 (by norm_num)
  simp only [estimateCreditsNeeded, creditRatioTable]
  norm_num at h ⊢
  exact h

lemma estimate_default (w : Nat) (plan t : String)
    (h1 : t ≠ "writing") (h2 : t ≠ "research") (h3 : t ≠ "detector_detection")
    (h4 : t ≠ "detector_generation") (h5 : t ≠ "prompt_engineer") :
    estimateCreditsNeeded w plan t = (w + 2) / 3 := by
  have h := toNat_ceil_div_nat w 3 (by norm_num)
  simp only [estimateCreditsNeeded, creditRatioTable, if_neg h1, if_neg h2, if_neg h3,
    if_neg h4, if_neg h5, Option.getD_none]
  norm_num at h ⊢
  exact h

lemma deduct_balance (s : LedgerState) (userId : String) (w : Nat) (p t : String) :
    (deductCreditsAtomic s userId w p t).1.credits
      + (successCost (deductCreditsAtomic s userId w p t).2 : Int) = s.credits := by
  simp only [deductCreditsAtomic]
  split
  · simp [successCost]
  · simp [successCost]

lemma deduct_nonneg (s : LedgerState) (userId : String) (w : Nat) (p t : String)
    (h : 0 ≤ s.credits) : 0 ≤ (deductCreditsAtomic s userId w p t).1.credits := by
  simp only [deductCreditsAtomic]
  split
  · exact h
  · rename_i hge
    simp only [not_lt] at hge
    simp
    omega

lemma runReserves_sum_le (userId planType : String) (reqs : List (Nat × String)) :
    ∀ s : LedgerState, 0 ≤ s.credits →
      (((runReserves s userId planType reqs).2.map successCost).sum : Int) ≤ s.credits := by
  induction reqs with
  | nil => intro s hs; simpa [runReserves] using hs
  | cons req rest ih =>
    intro s hs
    obtain ⟨w, tool⟩ := req
    simp only [runReserves, List.map_cons, List.sum_cons]
    have h1 := deduct_balance s userId w planType tool
    have h2 := deduct_nonneg s userId w planType tool hs
    have h3 := ih _ h2
    push_cast
    push_cast at h3
    omega

lemma applyTxOp_of_terminal (st : TxState)
    (h : st = .committed ∨ st = .rolled_back) (op : TxOp) : applyTxOp st op = st := by
  rcases h with h | h <;> subst h <;> cases op <;> rfl

lemma foldl_applyTxOp_of_terminal (ops : List TxOp) (st : TxState)
    (h : st = .committed ∨ st = .rolled_back) : ops.foldl applyTxOp st = st := by
  induction ops with
  | nil => rfl
  | cons op rest ih =>
    simp only [List.foldl_cons, applyTxOp_of_terminal st h op]
    exact ih

lemma applyTxOp_reserved_terminal (op : TxOp) :
    applyTxOp .reserved op = .committed ∨ applyTxOp .reserved op = .rolled_back := by
  cases op
  · exact Or.inl rfl
  · exact Or.inr rfl

/-- Claim C1: for every user with balance B ≥ 0 and every batch of
concurrent reserve calls — which the store's atomic transaction primitive
serializes into some sequential order — the sum of the costs of the
successful reservations never exceeds B; and in the concrete scenario, two
reserve calls of 150 credits each (450 writing words at 3 words per
credit) against a balance of 200 yield exactly one success, one
insufficient-credits failure, and a final balance of 50. -/
theorem reserve_no_double_spend (userId planType : String)
    (reqs : List (Nat × String)) (s : LedgerState) (h : 0 ≤ s.credits) :
    (((runReserves s userId planType reqs).2.map successCost).sum : Int) ≤ s.credits ∧
    ((runReserves ⟨200, [], 0⟩ "u" "freemium" [(450, "writing"), (450, "writing")]).2 =
        [.success 0 150 450 50, .insufficient 150 50] ∧
      (runReserves ⟨200, [], 0⟩ "u" "freemium"
          [(450, "writing"), (450, "writing")]).1.credits = 50) := by
  refine ⟨runReserves_sum_le userId planType reqs s h, ?_, ?_⟩ <;>
    simp [runReserves, deductCreditsAtomic, estimate_writing]

theorem reserve_no_double_spend_witness :
    (0 : Int) ≤ ((⟨200, [], 0⟩ : LedgerState).credits) ∧
    (((runReserves ⟨200, [], 0⟩ "u" "freemium"
        [(450, "writing"), (450, "writing")]).2.map successCost).sum : Int) ≤
      ((⟨200, [], 0⟩ : LedgerState).credits) :=
  ⟨by decide,
   (reserve_no_double_spend "u" "freemium" [(450, "writing"), (450, "writing")]
      ⟨200, [], 0⟩ (by decide)).1⟩

/-- Claim C4: a transaction created in state `reserved` reaches exactly one
terminal state after any nonempty sequence of commit/rollback calls, and
that terminal state never changes under further calls; committing an
already-committed transaction is a no-op (not an error), while committing
a rolled-back transaction reports a distinct error. -/
theorem tx_reservation_terminality (ops : List TxOp) (h : ops ≠ []) :
    (runTxOps ops = .committed ∨ runTxOps ops = .rolled_back) ∧
    (∀ op, applyTxOp (runTxOps ops) op = runTxOps ops) ∧
    txCommit .committed = .ok .committed ∧
    txCommit .rolled_back = .error "Cannot commit a rolled back transaction" := by
  match ops with
  | [] => exact absurd rfl h
  | op :: rest =>
    have hterm := applyTxOp_reserved_terminal op
    have hrun : runTxOps (op :: rest) = applyTxOp .reserved op := by
      simp only [runTxOps, List.foldl_cons]
      exact foldl_applyTxOp_of_terminal rest _ hterm
    refine ⟨hrun ▸ hterm, ?_, rfl, rfl⟩
    intro op2
    rw [hrun]
    exact applyTxOp_of_terminal _ hterm op2

theorem tx_reservation_terminality_witness :
    (runTxOps [.commitOp] = .committed ∨ runTxOps [.commitOp] = .rolled_back) ∧
    (∀ op, applyTxOp (runTxOps [.commitOp]) op = runTxOps [.commitOp]) ∧
    txCommit .committed = .ok .committed ∧
    txCommit .rolled_back = .error "Cannot commit a rolled back transaction" :=
  tx_reservation_terminality [.commitOp] (by decide)

/-- Claim C8: for a freemium user whose last refresh was not in the
current calendar month, running `refreshFreemiumCredits` twice in the same
month resets the balance to the monthly allotment once; the second run is
a no-op that reports it was skipped because the user was already refreshed
this month, so the balance is not reset twice. -/
theorem refresh_idempotent_within_month (now : Nat × Nat) (u : UserDoc)
    (h1 : u.planType = "freemium") (h2 : u.lastCreditRefresh ≠ some now) :
    ∃ u2 : UserDoc,
      refreshFreemiumCredits now (some u) =
        .ok (u2, .refreshed freemiumMonthlyCredits) ∧
      u2.credits = (freemiumMonthlyCredits : Int) ∧
      u2.lastCreditRefresh = some now ∧
      refreshFreemiumCredits now (some u2) =
        .ok (u2, .skipped "Already refreshed this month") := by
  refine ⟨{ u with
            credits := (freemiumMonthlyCredits : Int)
            lastCreditRefresh := some now }, ?_, rfl, rfl, ?_⟩
  · simp only [refreshFreemiumCredits, h1]
    cases hLR : u.lastCreditRefresh with
    | none => simp
    | some lr =>
      have hne : lr ≠ now := by
        intro e
        exact h2 (by rw [hLR, e])
      simp [hne]
  · simp [refreshFreemiumCredits, h1]

theorem refresh_idempotent_within_month_witness :
    (⟨"freemium", 50, some (2026, 9)⟩ : UserDoc).planType = "freemium" ∧
    (⟨"freemium", 50, some (2026, 9)⟩ : UserDoc).lastCreditRefresh ≠ some (2026, 10) ∧
    ∃ u2 : UserDoc,
      refreshFreemiumCredits (2026, 10) (some ⟨"freemium", 50, some (2026, 9)⟩) =
        .ok (u2, .refreshed freemiumMonthlyCredits) ∧
      u2.credits = (freemiumMonthlyCredits : Int) ∧
      u2.lastCreditRefresh = some (2026, 10) ∧
      refreshFreemiumCredits (2026, 10) (some u2) =
        .ok (u2, .skipped "Already refreshed this month") :=
  ⟨rfl, by decide,
   refresh_idempotent_within_month (2026, 10) ⟨"freemium", 50, some (2026, 9)⟩
     rfl (by decide)⟩

/-- Claim C9 counterexample: for the unregistered plan type "enterprise",
`getPlanLimits` returns `null` (it is a plain lookup that cannot throw),
instead of failing with `UnknownPlanError` as the spec-side contract
`getLimitsSpec` requires. -/
theorem getPlanLimits_unknown_returns_null :
    getPlanLimits "enterprise" = none ∧
    getLimitsSpec "enterprise" = .error "UnknownPlanError" := by
  constructor <;> rfl

/-- Claim C9 (amended): for every plan type outside the registered set,
`getPlanLimits` silently returns `null` (none): it neither raises an
`UnknownPlanError` nor falls back to a default configuration. -/
theorem getPlanLimits_unknown_amended (p : String)
    (h : p ∉ ["freemium", "pro", "custom"]) : getPlanLimits p = none := by
  simp only [List.mem_cons, List.mem_singleton, not_or] at h
  obtain ⟨h1, h2, h3, -⟩ := h
  simp [getPlanLimits, planValidatorLimits, h1, h2, h3]

theorem getPlanLimits_unknown_amended_witness :
    "enterprise" ∉ ["freemium", "pro", "custom"] ∧
    getPlanLimits "enterprise" = none :=
  ⟨by decide, getPlanLimits_unknown_amended "enterprise" (by decide)⟩

/-- Claim C10: for every word count, calling the credit estimator with a
tool type outside the recognized set silently falls back to the `writing`
ratio (`ratios[toolType] || ratios.writing`) and returns
`ceil(wordCount / 3)`, rather than raising an error. -/
theorem estimate_unrecognized_tool_defaults (w : Nat) (plan t : String)
    (h : t ∉ recognizedToolTypes) :
    estimateCreditsNeeded w plan t = estimateCreditsNeeded w plan "writing" ∧
    estimateCreditsNeeded w plan t = (w + 2) / 3 := by
  simp only [recognizedToolTypes, List.mem_cons, List.mem_singleton, not_or] at h
  obtain ⟨h1, h2, h3, h4, h5, -⟩ := h
  rw [estimate_default w plan t h1 h2 h3 h4 h5, estimate_writing]
  exact ⟨rfl, rfl⟩

theorem estimate_unrecognized_tool_defaults_witness :
    "translation" ∉ recognizedToolTypes ∧
    (estimateCreditsNeeded 7 "freemium" "translation" =
        estimateCreditsNeeded 7 "freemium" "writing" ∧
      estimateCreditsNeeded 7 "freemium" "translation" = (7 + 2) / 3) :=
  ⟨by decide,
   estimate_unrecognized_tool_defaults 7 "freemium" "translation" (by decide)⟩


lemma find?_map_setState (l : List CreditTransaction) (txId : Nat) (st : TxState) :
    (l.map (fun u => if u.txId == txId then { u with state := st } else u)).find?
        (fun t => t.txId == txId) =
      (l.find? (fun t => t.txId == txId)).map (fun u => { u with state := st }) := by
  induction l with
  | nil => rfl
  | cons a l ih =>
    simp only [List.map_cons]
    by_cases h : (a.txId == txId) = true
    · rw [if_pos h]
      rw [@List.find?_cons_of_pos CreditTransaction (fun t => t.txId == txId)
          { a with state := st } _ h,
        @List.find?_cons_of_pos CreditTransaction (fun t => t.txId == txId) a _ h]
      rfl
    · rw [if_neg h, @List.find?_cons_of_neg CreditTransaction (fun t => t.txId == txId) _ _ h,
        @List.find?_cons_of_neg CreditTransaction (fun t => t.txId == txId) _ _ h]
      exact ih

lemma rollback_of_fresh_append (s : LedgerState) (tx : CreditTransaction)
    (hfresh : ∀ t ∈ s.txs, t.txId ≠ tx.txId) (hst : tx.state = .reserved)
    (credits2 : Int) (nid : Nat) :
    ∃ s2 : LedgerState,
      rollbackTransaction ⟨credits2, s.txs ++ [tx], nid⟩ tx.txId =
        .ok (s2, tx.creditsReserved) ∧
      s2.credits = credits2 + (tx.creditsReserved : Int) ∧
      rollbackTransaction s2 tx.txId = .ok (s2, 0) := by
  have hnone : s.txs.find? (fun t => t.txId == tx.txId) = none := by
    rw [List.find?_eq_none]
    intro x hx
    simpa using hfresh x hx
  have hself : (tx.txId == tx.txId) = true := by simp
  have hfind1 : findTx ⟨credits2, s.txs ++ [tx], nid⟩ tx.txId = some tx := by
    simp only [findTx, List.find?_append, hnone, Option.none_or]
    rw [@List.find?_cons_of_pos CreditTransaction (fun t => t.txId == tx.txId) _ _ hself]
  refine ⟨⟨credits2 + (tx.creditsReserved : Int),
      (s.txs ++ [tx]).map
        (fun u => if u.txId == tx.txId then { u with state := TxState.rolled_back } else u),
      nid⟩, ?_, rfl, ?_⟩
  · simp only [rollbackTransaction, hfind1, hst]
  · have hnone2 :
        (s.txs.map
          (fun u =>
            if u.txId == tx.txId then { u with state := TxState.rolled_back } else u)).find?
            (fun t => t.txId == tx.txId) = none := by
      rw [find?_map_setState, hnone]
      rfl
    have hfind2 : findTx
        ⟨credits2 + (tx.creditsReserved : Int),
          (s.txs ++ [tx]).map
            (fun u =>
              if u.txId == tx.txId then { u with state := TxState.rolled_back } else u),
          nid⟩ tx.txId = some { tx with state := TxState.rolled_back } := by
      simp only [findTx, List.map_append, List.find?_append, hnone2, Option.none_or,
        List.map_cons, List.map_nil, if_pos hself]
      rw [@List.find?_cons_of_pos CreditTransaction (fun t => t.txId == tx.txId)
        { tx with state := TxState.rolled_back } _ hself]
    simp only [rollbackTransaction, hfind2]

/-- Claim C3: a successful reserve immediately followed by a rollback of
its transaction leaves the balance unchanged from its value before the
reserve; the amount restored equals exactly the amount reserved (it is
read from the transaction record, never computed from output); and a
second rollback of the same transaction is a no-op restoring zero. -/
theorem reserve_rollback_restores_exactly (s : LedgerState) (userId : String)
    (w : Nat) (planType toolType : String)
    (hfresh : ∀ t ∈ s.txs, t.txId ≠ s.nextId)
    (txId c words : Nat) (bal : Int)
    (hsucc : (deductCreditsAtomic s userId w planType toolType).2 =
      .success txId c words bal) :
    ∃ s2 : LedgerState,
      rollbackTransaction (deductCreditsAtomic s userId w planType toolType).1 txId =
        .ok (s2, c) ∧
      s2.credits = s.credits ∧
      rollbackTransaction s2 txId = .ok (s2, 0) := by
  simp only [deductCreditsAtomic] at hsucc ⊢
  by_cases hlt : s.credits < (estimateCreditsNeeded w planType toolType : Int)
  · rw [if_pos hlt] at hsucc
    exact absurd hsucc (by simp)
  · rw [if_neg hlt] at hsucc ⊢
    obtain ⟨hid, hc, -, -⟩ :=
      (by simpa using hsucc :
        s.nextId = txId ∧ estimateCreditsNeeded w planType toolType = c ∧
          w = words ∧ s.credits - (estimateCreditsNeeded w planType toolType : Int) = bal)
    obtain ⟨s2, hroll1, hcred, hroll2⟩ :=
      rollback_of_fresh_append s
        { txId := s.nextId, userId := userId, toolType := toolType,
          creditsReserved := estimateCreditsNeeded w planType toolType,
          wordsAllocated := w, state := .reserved }
        (by simpa using hfresh) rfl
        (s.credits - (estimateCreditsNeeded w planType toolType : Int)) (s.nextId + 1)
    have hcred2 : s2.credits =
        s.credits - (estimateCreditsNeeded w planType toolType : Int) +
          (estimateCreditsNeeded w planType toolType : Int) := hcred
    refine ⟨s2, ?_, by omega, ?_⟩
    · rw [← hid, ← hc]
      exact hroll1
    · rw [← hid]
      exact hroll2

theorem reserve_rollback_restores_exactly_witness :
    (∀ t ∈ (⟨200, [], 0⟩ : LedgerState).txs, t.txId ≠ (⟨200, [], 0⟩ : LedgerState).nextId) ∧
    (deductCreditsAtomic ⟨200, [], 0⟩ "u" 450 "freemium" "writing").2 =
      .success 0 150 450 50 ∧
    ∃ s2 : LedgerState,
      rollbackTransaction (deductCreditsAtomic ⟨200, [], 0⟩ "u" 450 "freemium" "writing").1 0 =
        .ok (s2, 150) ∧
      s2.credits = (⟨200, [], 0⟩ : LedgerState).credits ∧
      rollbackTransaction s2 0 = .ok (s2, 0) :=
  ⟨by simp,
   by simp [deductCreditsAtomic, estimate_writing],
   reserve_rollback_restores_exactly ⟨200, [], 0⟩ "u" 450 "freemium" "writing"
     (by simp) 0 150 450 50 (by simp [deductCreditsAtomic, estimate_writing])⟩

lemma deduct_success (s : LedgerState) (userId : String) (w : Nat)
    (planType toolType : String)
    (hge : (estimateCreditsNeeded w planType toolType : Int) ≤ s.credits) :
    deductCreditsAtomic s userId w planType toolType =
      (⟨s.credits - (estimateCreditsNeeded w planType toolType : Int),
        s.txs ++ [⟨s.nextId, userId, toolType,
          estimateCreditsNeeded w planType toolType, w, .reserved⟩],
        s.nextId + 1⟩,
       .success s.nextId (estimateCreditsNeeded w planType toolType) w
         (s.credits - (estimateCreditsNeeded w planType toolType : Int))) := by
  simp only [deductCreditsAtomic, if_neg (not_lt.mpr hge)]

/-- Claim C5: reserving for an estimate of 500 research words and then
reconciling against an actual output of 700 words yields a net total
deduction equal to `creditsForWords(700, research)` = 140, achieved by a
second, independent reservation of 40 credits for the 200-word shortfall;
the original transaction record is left unchanged in the ledger; and when
the actual output (300 words) is below the estimate, the surplus is
refunded instead, for a net deduction of `creditsForWords(300, research)`
= 60. -/
theorem research_reconciliation (s : LedgerState) (userId planType : String)
    (h : 140 ≤ s.credits) :
    (∃ s2 : LedgerState,
      researchQueryCredits s userId planType 500 700 = .completed s2 140 s.nextId ∧
      s.credits - s2.credits = (estimateCreditsNeeded 700 planType "research" : Int) ∧
      (∃ tx1 tx2 : CreditTransaction,
        s2.txs = s.txs ++ [tx1, tx2] ∧
        tx1.txId = s.nextId ∧ tx1.creditsReserved = 100 ∧ tx1.state = .reserved ∧
        tx2.txId ≠ tx1.txId ∧ tx2.creditsReserved = 40 ∧ tx2.state = .reserved)) ∧
    (∃ s3 : LedgerState,
      researchQueryCredits s userId planType 500 300 = .completed s3 60 s.nextId ∧
      s.credits - s3.credits = (estimateCreditsNeeded 300 planType "research" : Int)) := by
  have e500 : estimateCreditsNeeded 500 planType "research" = 100 := by
    rw [estimate_research]
  have e200 : estimateCreditsNeeded 200 planType "research" = 40 := by
    rw [estimate_research]
  have e700 : estimateCreditsNeeded 700 planType "research" = 140 := by
    rw [estimate_research]
  have e300 : estimateCreditsNeeded 300 planType "research" = 60 := by
    rw [estimate_research]
  have eceil : (Int.ceil ((200 : ℚ) / 5)).toNat = 40 := by
    have h5 := toNat_ceil_div_nat 200 5 (by norm_num)
    norm_num at h5 ⊢
    exact h5
  have hge1 : (estimateCreditsNeeded 500 planType "research" : Int) ≤ s.credits := by
    rw [e500]; push_cast; omega
  have step1 := deduct_success s userId 500 planType "research" hge1
  constructor
  · refine ⟨⟨s.credits - 100 - 40,
      (s.txs ++ [⟨s.nextId, userId, "research", 100, 500, .reserved⟩]) ++
        [⟨s.nextId + 1, userId, "research", 40, 200, .reserved⟩],
      s.nextId + 1 + 1⟩, ?_, ?_, ?_⟩
    · simp only [researchQueryCredits, step1, e500]
      norm_num
      have hge2 : (estimateCreditsNeeded 200 planType "research" : Int) ≤
          s.credits - (100 : Int) := by
        rw [e200]; push_cast; omega
      have step2 := deduct_success
        ⟨s.credits - (100 : Int),
          s.txs ++ [⟨s.nextId, userId, "research", 100, 500, .reserved⟩],
          s.nextId + 1⟩ userId 200 planType "research" hge2
      simp only [step2, e200]
      norm_num
    · rw [e700]
      push_cast
      omega
    · exact ⟨⟨s.nextId, userId, "research", 100, 500, .reserved⟩,
        ⟨s.nextId + 1, userId, "research", 40, 200, .reserved⟩,
        by simp, rfl, rfl, rfl, by simp, rfl, rfl⟩
  · refine ⟨⟨s.credits - 100 + 40,
      s.txs ++ [⟨s.nextId, userId, "research", 100, 500, .reserved⟩],
      s.nextId + 1⟩, ?_, ?_⟩
    · simp only [researchQueryCredits, step1, e500, refundCredits]
      norm_num [eceil]
    · rw [e300]
      push_cast
      omega

theorem research_reconciliation_witness :
    (140 : Int) ≤ (⟨200, [], 0⟩ : LedgerState).credits ∧
    ((∃ s2 : LedgerState,
      researchQueryCredits ⟨200, [], 0⟩ "u" "freemium" 500 700 =
        .completed s2 140 (⟨200, [], 0⟩ : LedgerState).nextId ∧
      (⟨200, [], 0⟩ : LedgerState).credits - s2.credits =
        (estimateCreditsNeeded 700 "freemium" "research" : Int) ∧
      (∃ tx1 tx2 : CreditTransaction,
        s2.txs = (⟨200, [], 0⟩ : LedgerState).txs ++ [tx1, tx2] ∧
        tx1.txId = (⟨200, [], 0⟩ : LedgerState).nextId ∧
        tx1.creditsReserved = 100 ∧ tx1.state = .reserved ∧
        tx2.txId ≠ tx1.txId ∧ tx2.creditsReserved = 40 ∧ tx2.state = .reserved)) ∧
    (∃ s3 : LedgerState,
      researchQueryCredits ⟨200, [], 0⟩ "u" "freemium" 500 300 =
        .completed s3 60 (⟨200, [], 0⟩ : LedgerState).nextId ∧
      (⟨200, [], 0⟩ : LedgerState).credits - s3.credits =
        (estimateCreditsNeeded 300 "freemium" "research" : Int))) :=
  ⟨by decide, research_reconciliation ⟨200, [], 0⟩ "u" "freemium" (by decide)⟩

/-- Claim C2 counterexample: the `POST /user/:uid/credits` transaction
handler adds the request's `amount` to the stored balance with no check,
so a user with 200 credits and a request with amount = -300 gets a
persisted balance of -100, which is negative. -/
theorem update_credits_endpoint_goes_negative :
    (updateCreditsTransaction ⟨"freemium", 200, none⟩ (-300)).credits = -100 ∧
    (updateCreditsTransaction ⟨"freemium", 200, none⟩ (-300)).credits < 0 := by
  exact ⟨by decide, by decide⟩

/-- Claim C2 (amended): the ledger operations and the allocation-service
operations preserve a non-negative balance — reserve only deducts after
the atomic balance check, rollback and refund only add, commit does not
touch the balance, the monthly refresh writes the fixed allotment, and the
plan allocations only add positive amounts — but the direct credit-update
endpoint adds the given amount unconditionally, so it can persist a
negative balance when the amount is a sufficiently negative number. -/
theorem balance_nonneg_amended :
    (∀ (s : LedgerState) (userId : String) (w : Nat) (p t : String),
      0 ≤ s.credits → 0 ≤ (deductCreditsAtomic s userId w p t).1.credits) ∧
    (∀ (s : LedgerState) (txId : Nat) (s2 : LedgerState) (n : Nat),
      0 ≤ s.credits → rollbackTransaction s txId = .ok (s2, n) → 0 ≤ s2.credits) ∧
    (∀ (s : LedgerState) (txId : Nat) (s2 : LedgerState),
      commitTransaction s txId = .ok s2 → s2.credits = s.credits) ∧
    (∀ (s : LedgerState) (n : Nat), 0 ≤ s.credits → 0 ≤ (refundCredits s n).credits) ∧
    (∀ (now : Nat × Nat) (u u2 : UserDoc) (r : RefreshResult),
      0 ≤ u.credits → refreshFreemiumCredits now (some u) = .ok (u2, r) →
        0 ≤ u2.credits) ∧
    (∀ u : UserDoc, 0 ≤ u.credits → 0 ≤ (allocateProCredits u).credits) ∧
    (∀ (u : UserDoc) (amt : Int) (u2 : UserDoc),
      0 ≤ u.credits → allocateCustomCredits u amt = .ok u2 → 0 ≤ u2.credits) ∧
    (∀ (u : UserDoc) (amt : Int),
      (updateCreditsTransaction u amt).credits = u.credits + amt) := by
  refine ⟨deduct_nonneg, ?_, ?_, ?_, ?_, ?_, ?_, fun u amt => rfl⟩
  · intro s txId s2 n hs h
    simp only [rollbackTransaction] at h
    split at h
    · exact absurd h (by simp)
    · rename_i t heq
      split at h
      · simp only [Except.ok.injEq, Prod.mk.injEq] at h
        obtain ⟨h1, -⟩ := h
        subst h1
        simp only
        omega
      · simp only [Except.ok.injEq, Prod.mk.injEq] at h
        obtain ⟨h1, -⟩ := h
        subst h1
        exact hs
      · exact absurd h (by simp)
  · intro s txId s2 h
    simp only [commitTransaction] at h
    split at h
    · exact absurd h (by simp)
    · split at h
      · exact absurd h (by simp)
      · simp only [Except.ok.injEq] at h
        subst h
        rfl
  · intro s n hs
    simp only [refundCredits]
    omega
  · intro now u u2 r hu h
    simp only [refreshFreemiumCredits] at h
    split at h
    · simp only [Except.ok.injEq, Prod.mk.injEq] at h
      obtain ⟨h1, -⟩ := h
      subst h1
      exact hu
    · split at h
      · split at h
        · simp only [Except.ok.injEq, Prod.mk.injEq] at h
          obtain ⟨h1, -⟩ := h
          subst h1
          exact hu
        · simp only [Except.ok.injEq, Prod.mk.injEq] at h
          obtain ⟨h1, -⟩ := h
          subst h1
          simp [freemiumMonthlyCredits]
      · simp only [Except.ok.injEq, Prod.mk.injEq] at h
        obtain ⟨h1, -⟩ := h
        subst h1
        simp [freemiumMonthlyCredits]
  · intro u hu
    simp only [allocateProCredits, proMonthlyCredits]
    omega
  · intro u amt u2 hu h
    simp only [allocateCustomCredits] at h
    split at h
    · exact absurd h (by simp)
    · rename_i hge
      simp only [Except.ok.injEq] at h
      subst h
      simp only [customMinAmount, customCreditsPerDollar, not_lt] at hge ⊢
      omega

theorem balance_nonneg_amended_witness :
    (0 : Int) ≤ (⟨200, [], 0⟩ : LedgerState).credits ∧
    0 ≤ (deductCreditsAtomic ⟨200, [], 0⟩ "u" 450 "freemium" "writing").1.credits :=
  ⟨by decide,
   balance_nonneg_amended.1 ⟨200, [], 0⟩ "u" 450 "freemium" "writing" (by decide)⟩

/-- Claim C6: for every positive word count and recognized tool type, the
credits charged equal the ceiling of the word count divided by a strictly
positive words-per-credit ratio (writing = 3 words per credit); and in the
scenario, a freemium user with 200 credits requesting 600 writing words is
charged exactly 200 credits, the reserve succeeds leaving balance 0, and
an immediately following reserve of 1 word fails with insufficient credits
leaving the balance 0. -/
theorem credit_conversion_formula (w : Nat) (hw : 0 < w) (plan t : String)
    (ht : t ∈ recognizedToolTypes) :
    (0 < wordsPerCredit t ∧
      estimateCreditsNeeded w plan t = (w + wordsPerCredit t - 1) / wordsPerCredit t) ∧
    wordsPerCredit "writing" = 3 ∧
    estimateCreditsNeeded 600 "freemium" "writing" = 200 ∧
    ((deductCreditsAtomic ⟨200, [], 0⟩ "u" 600 "freemium" "writing").2 =
        .success 0 200 600 0 ∧
      (deductCreditsAtomic ⟨200, [], 0⟩ "u" 600 "freemium" "writing").1.credits = 0 ∧
      (deductCreditsAtomic (deductCreditsAtomic ⟨200, [], 0⟩ "u" 600 "freemium" "writing").1
          "u" 1 "freemium" "writing").2 = .insufficient 1 0 ∧
      (deductCreditsAtomic (deductCreditsAtomic ⟨200, [], 0⟩ "u" 600 "freemium" "writing").1
          "u" 1 "freemium" "writing").1.credits = 0) := by
  refine ⟨?_, by simp [wordsPerCredit], by rw [estimate_writing], ?_⟩
  · simp only [recognizedToolTypes, List.mem_cons, List.mem_singleton] at ht
    rcases ht with rfl | rfl | rfl | rfl | rfl | ht
    · rw [estimate_writing]
      simp [wordsPerCredit]
    · rw [estimate_research]
      simp [wordsPerCredit]
    · rw [estimate_detector_detection]
      simp [wordsPerCredit]
    · rw [estimate_detector_generation]
      simp [wordsPerCredit]
    · rw [estimate_prompt_engineer]
      simp [wordsPerCredit]
    · exact absurd ht (by simp)
  · refine ⟨?_, ?_, ?_, ?_⟩ <;>
      simp [deductCreditsAtomic, estimate_writing]

theorem credit_conversion_formula_witness :
    0 < 600 ∧ "writing" ∈ recognizedToolTypes ∧
    ((0 < wordsPerCredit "writing" ∧
      estimateCreditsNeeded 600 "freemium" "writing" =
        (600 + wordsPerCredit "writing" - 1) / wordsPerCredit "writing") ∧
    wordsPerCredit "writing" = 3 ∧
    estimateCreditsNeeded 600 "freemium" "writing" = 200 ∧
    ((deductCreditsAtomic ⟨200, [], 0⟩ "u" 600 "freemium" "writing").2 =
        .success 0 200 600 0 ∧
      (deductCreditsAtomic ⟨200, [], 0⟩ "u" 600 "freemium" "writing").1.credits = 0 ∧
      (deductCreditsAtomic (deductCreditsAtomic ⟨200, [], 0⟩ "u" 600 "freemium" "writing").1
          "u" 1 "freemium" "writing").2 = .insufficient 1 0 ∧
      (deductCreditsAtomic (deductCreditsAtomic ⟨200, [], 0⟩ "u" 600 "freemium" "writing").1
          "u" 1 "freemium" "writing").1.credits = 0)) :=
  ⟨by decide, by decide,
   credit_conversion_formula 600 (by decide) "freemium" "writing" (by decide)⟩

/-- Claim C7 counterexample: for a freemium user whose monthly usage
(500 credits) is at or above the freemium monthly cap (200) but whose
balance (1000) covers the estimate (100 credits for 300 writing words),
`validateRequest` returns a valid result with no error code: the monthly
aggregate cap is never evaluated, so the claimed check ordering — which
would return MONTHLY_CREDIT_LIMIT_REACHED before the balance check — does
not hold. -/
theorem validate_request_skips_monthly_cap :
    planValidatorLimits "freemium" = some ⟨some 200⟩ ∧
    (200 : Nat) ≤ (⟨3000, 500⟩ : MonthlyUsage).totalCredits ∧
    validateRequest ⟨some ⟨"freemium", 1000⟩, ⟨3000, 500⟩⟩ 300 "writing" =
      { isValid := true, errorCode := none, estimatedCredits := some 100 } := by
  refine ⟨rfl, by norm_num, ?_⟩
  simp [validateRequest, validateCreditAvailability, estimate_writing, planValidatorLimits]

/-- Claim C7 (amended): `validateRequest` evaluates exactly three checks
in the fixed short-circuit order plan existence (PLAN_NOT_FOUND) → plan
validity (INVALID_PLAN) → balance sufficiency (INSUFFICIENT_CREDITS) and
returns the first failing one; the monthly-cap check is never evaluated:
the result is independent of the monthly usage, the error code is never
MONTHLY_CREDIT_LIMIT_REACHED, and the separate `validateMonthlyLimits`
(not called by `validateRequest`) always reports valid because the limit
fields it reads are absent from the limits table. -/
theorem validate_request_check_order (env : ValidatorEnv) (w : Nat) (t : String) :
    ((validateRequest env w t).errorCode = some "PLAN_NOT_FOUND" ↔
      env.userPlan = none) ∧
    ((validateRequest env w t).errorCode = some "INVALID_PLAN" ↔
      ∃ p, env.userPlan = some p ∧ planValidatorLimits p.planType = none) ∧
    ((validateRequest env w t).errorCode = some "INSUFFICIENT_CREDITS" ↔
      ∃ p, env.userPlan = some p ∧ (planValidatorLimits p.planType).isSome = true ∧
        p.credits < (estimateCreditsNeeded w p.planType t : Int)) ∧
    (validateRequest env w t).errorCode ≠ some "MONTHLY_CREDIT_LIMIT_REACHED" ∧
    (∀ usage : MonthlyUsage,
      validateRequest ⟨env.userPlan, usage⟩ w t = validateRequest env w t) ∧
    (∀ (usage : MonthlyUsage) (w2 : Nat),
      (validateMonthlyLimits usage w2).isValid = true) := by
  obtain ⟨up, usage⟩ := env
  refine ⟨?_, ?_, ?_, ?_, fun usage2 => rfl, fun usage2 w2 => rfl⟩ <;>
    cases up with
    | none => simp [validateRequest]
    | some p =>
      cases hpl : planValidatorLimits p.planType with
      | none => simp [validateRequest, hpl]
      | some l =>
        by_cases hlt : p.credits < (estimateCreditsNeeded w p.planType t : Int)
        · simp [validateRequest, validateCreditAvailability, hpl, if_pos hlt, hlt]
        · simp [validateRequest, validateCreditAvailability, hpl, if_neg hlt, hlt]
